import Mathlib

/-!
Verification of the NextjsTemplate repository's specification against its code.

The repository consists of two presentational React components
(`VideoCard` in `src/components/VideoCard.tsx`, `SafeButton` in
`src/components/ui/safe-button.tsx`), a Next.js configuration object, and a
markdown rules document.  We give a shallow embedding: the render output of a
component is a tree of DOM/component nodes, component props are structures of
strings, React state and the mount effect are made explicit (the thumbnail
value passed to the render function), and the configuration is a structure of
literal fields.
-/

namespace NextTpl

/-! ## A small DOM model

Render output is a tree: element nodes carry a tag, an attribute association
list and children; text nodes carry a string.  Library primitives imported by
the components (`Card`, `Avatar`, `Button`, ...) are opaque renderers, so they
appear as element nodes under their own tag, with their JSX props as
attributes. -/

inductive Node where
  | text (s : String)
  | elem (tag : String) (attrs : List (String × String)) (children : List Node)

mutual

/-- All strings appearing as text content of the tree, in document order. -/
def Node.texts : Node → List String
  | .text s => [s]
  | .elem _ _ cs => Node.textsOf cs

def Node.textsOf : List Node → List String
  | [] => []
  | c :: cs => Node.texts c ++ Node.textsOf cs

end

mutual

/-- The `src` attribute values of every element with the given tag, in
document order. -/
def Node.srcsOfTag (tag : String) : Node → List String
  | .text _ => []
  | .elem t attrs cs =>
      (if t = tag then (attrs.lookup "src").toList else []) ++
        Node.srcsOfTagList tag cs

def Node.srcsOfTagList (tag : String) : List Node → List String
  | [] => []
  | c :: cs => Node.srcsOfTag tag c ++ Node.srcsOfTagList tag cs

end

/-! ## VideoCard (src/components/VideoCard.tsx) -/

/-- The `VideoCardProps` interface: seven display strings. -/
structure VideoCardProps where
  id : String
  title : String
  channelName : String
  views : String
  timePosted : String
  duration : String
  channelId : String

/-- The initial value of the `thumbnail` state: `useState("")`. -/
def videoCardInitialThumbnail : String := ""

/-- The value the mount effect assigns to the `thumbnail` state:
``setThumbnail(`https://picsum.photos/200/300?random=${id}`)``. -/
def videoCardEffectThumbnail (id : String) : String :=
  "https://picsum.photos/200/300?random=" ++ id

/-- The children of `AvatarFallback`: the JSX expression `{channelName[0]}`.
JavaScript string indexing yields the one-character string at index 0, or
`undefined` (which React renders as nothing) when the string is empty. -/
def avatarFallbackNodes (channelName : String) : List Node :=
  match channelName.data.head? with
  | some c => [Node.text (String.singleton c)]
  | none => []

/-- The JSX returned by `VideoCard`, as a function of the props and of the
current value of the `thumbnail` state. -/
def renderVideoCard (p : VideoCardProps) (thumbnail : String) : Node :=
  Node.elem "Card" [("className", "overflow-hidden group")] [
    Node.elem "CardContent" [("className", "p-0")] [
      Node.elem "div" [("className", "relative")] [
        Node.elem "img"
          [("src", thumbnail), ("alt", p.title),
           ("className", "w-full aspect-video object-cover")] [],
        Node.elem "span"
          [("className",
            "absolute bottom-2 right-2 bg-black/80 text-white text-xs px-1 rounded")]
          [Node.text p.duration]],
      Node.elem "div" [("className", "p-3 flex gap-3")] [
        Node.elem "Avatar" [("className", "h-9 w-9")] [
          Node.elem "AvatarImage"
            [("src", "https://i.pravatar.cc/300?u=" ++ p.channelId)] [],
          Node.elem "AvatarFallback" [] (avatarFallbackNodes p.channelName)],
        Node.elem "div" [("className", "flex-1")] [
          Node.elem "h3" [("className", "font-semibold line-clamp-2 mb-1")]
            [Node.text p.title],
          Node.elem "p" [("className", "text-sm text-muted-foreground")]
            [Node.text p.channelName],
          Node.elem "div" [("className", "text-sm text-muted-foreground")]
            [Node.text p.views, Node.text " views • ", Node.text p.timePosted]],
        Node.elem "Button"
          [("variant", "ghost"), ("size", "icon"),
           ("className",
            "h-8 w-8 opacity-0 group-hover:opacity-100 transition-opacity")]
          [Node.text "⋮"]]]]

/-- The render output of `VideoCard` at a point of its lifecycle: before the
mount effect has run the `thumbnail` state still holds its initial value `""`;
once the effect has run it holds the interpolated URL. -/
def videoCardRenderAt (p : VideoCardProps) (mounted : Bool) : Node :=
  renderVideoCard p
    (if mounted then videoCardEffectThumbnail p.id else videoCardInitialThumbnail)

/-- Modelled from the spec: a variant of `VideoCard` that assigns the thumbnail
URL synchronously during render instead of through the mount effect ("it is
indistinguishable from a synchronous assignment").  Used only as the right-hand
side of the refinement comparison. -/
def renderVideoCardSync (p : VideoCardProps) : Node :=
  renderVideoCard p (videoCardEffectThumbnail p.id)

/-- A concrete props record used to instantiate theorems with hypotheses. -/
def sampleProps : VideoCardProps :=
  { id := "1", title := "A title", channelName := "A channel",
    views := "12K", timePosted := "2 days ago", duration := "10:31",
    channelId := "u7" }

/-! ## SafeButton (src/components/ui/safe-button.tsx) -/

/-- The variant enumeration declared by `SafeButtonProps`:
`"default" | "destructive" | "secondary"`.  TypeScript erases this annotation
at runtime, so the component itself is embedded polymorphically in the variant
value below. -/
inductive SafeButtonVariant where
  | default
  | destructive
  | secondary

/-- Props of the underlying `Button` primitive as `SafeButton` uses them: the
`className` string, the `variant` value, and `rest`, the record of all the
remaining props spread with `{...props}`.  `V` is the type of the variant value
and `R` the shape of the remaining props: the embedding is polymorphic in both,
since at runtime any values flow through. -/
structure ButtonProps (V R : Type) where
  className : String
  variant : V
  rest : R

/-- Modelled from the spec: `cn` lives in `src/lib/utils`, which is not among
the repository's source files; the spec describes `SafeButton` as "merges a
static CSS class list", so `cn` is modelled as class-list concatenation
(space-joining the two class strings, dropping the separator when the second
is empty). -/
def cn (a b : String) : String := if b = "" then a else a ++ " " ++ b

/-- The static class list `SafeButton` always merges in. -/
def safeButtonStaticClasses : String := "font-semibold transition-all"

/-- The `SafeButton` component: renders `Button` with the merged `className`,
the forwarded `variant`, and the spread remaining props. -/
def SafeButton {V R : Type} (p : ButtonProps V R) : ButtonProps V R :=
  { className := cn safeButtonStaticClasses p.className
    variant := p.variant
    rest := p.rest }

/-- `needle` occurs contiguously inside `hay`. -/
def strContainsSubstr (hay needle : String) : Prop :=
  ∃ a b : String, hay = a ++ needle ++ b

/-- A concrete `ButtonProps` record used to instantiate theorems with
hypotheses.  Its variant value `"ghost"` lies outside the declared
enumeration. -/
def sampleBtn : ButtonProps String Unit :=
  { className := "h-8 w-8", variant := "ghost", rest := () }

/-! ## next.config.ts (unnamed source file) -/

structure ImagesConfig where
  domains : List String

structure CompilerOptions where
  styledComponents : Bool

structure NextConfig where
  reactStrictMode : Bool
  images : ImagesConfig
  compiler : CompilerOptions

/-- The configuration object exported by `next.config.ts`. -/
def nextConfig : NextConfig :=
  { reactStrictMode := true
    images := { domains := ["i.pravatar.cc", "picsum.photos"] }
    compiler := { styledComponents := true } }

/-! ## Helper lemmas -/

/-- A non-empty string has a first character. -/
theorem head_isSome_of_ne_empty (s : String) (h : s ≠ "") :
    ∃ c, s.data.head? = some c := by
  cases s with
  | mk data =>
    cases data with
    | nil => exact absurd rfl h
    | cons c cs => exact ⟨c, rfl⟩

/-- The avatar fallback renders only text nodes, so it contributes no `src`
attributes under any tag. -/
theorem srcsOfTagList_fallback (tag s : String) :
    Node.srcsOfTagList tag (avatarFallbackNodes s) = [] := by
  unfold avatarFallbackNodes
  cases s.data.head? with
  | none => rfl
  | some c => rfl

/-- `cn` applied to the static class list keeps `"font-semibold"` as a
substring of the result, whatever the incoming class string. -/
theorem cn_keeps_font_semibold (c : String) :
    strContainsSubstr (cn safeButtonStaticClasses c) "font-semibold" := by
  by_cases h : c = ""
  · refine ⟨"", " transition-all", ?_⟩
    simp [cn, safeButtonStaticClasses, h]
  · refine ⟨"", " transition-all " ++ c, ?_⟩
    simp only [cn, safeButtonStaticClasses, if_neg h]
    rw [← String.append_assoc]
    simp

/-- `cn` applied to the static class list keeps `"transition-all"` as a
substring of the result, whatever the incoming class string. -/
theorem cn_keeps_transition_all (c : String) :
    strContainsSubstr (cn safeButtonStaticClasses c) "transition-all" := by
  by_cases h : c = ""
  · refine ⟨"font-semibold ", "", ?_⟩
    simp [cn, safeButtonStaticClasses, h]
  · refine ⟨"font-semibold ", " " ++ c, ?_⟩
    simp only [cn, safeButtonStaticClasses, if_neg h]
    rw [← String.append_assoc]
    simp

/-! ## Claim theorems -/

/-- C1: for every props record with id field `i`, after the mount effect of
`VideoCard` has run, the thumbnail `img` element's `src` attribute equals
`"https://picsum.photos/200/300?random=" ++ i`. -/
theorem C1_thumbnail_src_after_mount (p : VideoCardProps) :
    Node.srcsOfTag "img" (videoCardRenderAt p true) =
      ["https://picsum.photos/200/300?random=" ++ p.id] := by
  simp [videoCardRenderAt, renderVideoCard, videoCardEffectThumbnail,
    Node.srcsOfTag, Node.srcsOfTagList, List.lookup, srcsOfTagList_fallback]

/-- C2: at every point of the lifecycle, the render output of `VideoCard`
contains the supplied `title`, `channelName`, `views` and `duration` strings
verbatim as text content of the rendered tree. -/
theorem C2_display_strings_verbatim (p : VideoCardProps) (mounted : Bool) :
    p.title ∈ Node.texts (videoCardRenderAt p mounted) ∧
    p.channelName ∈ Node.texts (videoCardRenderAt p mounted) ∧
    p.views ∈ Node.texts (videoCardRenderAt p mounted) ∧
    p.duration ∈ Node.texts (videoCardRenderAt p mounted) := by
  simp [videoCardRenderAt, renderVideoCard, Node.texts, Node.textsOf]

/-- C3: at every point of the lifecycle, the avatar image source rendered by
`VideoCard` with channelId field `c` equals
`"https://i.pravatar.cc/300?u=" ++ c` (the spec's `{userId}` and `{channelId}`
templates both denote this interpolation of the channelId prop). -/
theorem C3_avatar_src (p : VideoCardProps) (mounted : Bool) :
    Node.srcsOfTag "AvatarImage" (videoCardRenderAt p mounted) =
      ["https://i.pravatar.cc/300?u=" ++ p.channelId] := by
  simp [videoCardRenderAt, renderVideoCard, Node.srcsOfTag,
    Node.srcsOfTagList, List.lookup, srcsOfTagList_fallback]

/-- C4 counterexample: the claim asserts that the effect-based rendering is
identical to the synchronous variant at every render, including the first
pre-effect render; this is false at a concrete props record, where the first
render carries `src = ""` while the synchronous variant carries the
interpolated URL. -/
theorem C4_counterexample :
    ¬ (videoCardRenderAt sampleProps false = renderVideoCardSync sampleProps) := by
  intro h
  have h2 := congrArg (Node.srcsOfTag "img") h
  simp [videoCardRenderAt, renderVideoCardSync, renderVideoCard,
    videoCardInitialThumbnail, videoCardEffectThumbnail, sampleProps,
    Node.srcsOfTag, Node.srcsOfTagList, List.lookup, avatarFallbackNodes] at h2

/-- C4 (amended): from the mount effect onwards, the effect-based rendering of
`VideoCard` is identical to the variant that assigns the thumbnail URL
synchronously during render; only the single pre-effect render differs (there
the thumbnail is still the initial `""`). -/
theorem C4_effect_equals_sync_after_mount (p : VideoCardProps) :
    videoCardRenderAt p true = renderVideoCardSync p := rfl

/-- C5: for every variant value, of any type (so including values outside the
declared enumeration), `SafeButton` passes the variant unchanged to the
underlying `Button`, and the rendered class list always contains the static
substrings `"font-semibold"` and `"transition-all"`, regardless of the
supplied `className`. -/
theorem C5_variant_forwarded_and_static_classes (V R : Type)
    (p : ButtonProps V R) :
    (SafeButton p).variant = p.variant ∧
    strContainsSubstr (SafeButton p).className "font-semibold" ∧
    strContainsSubstr (SafeButton p).className "transition-all" :=
  ⟨rfl, cn_keeps_font_semibold p.className, cn_keeps_transition_all p.className⟩

/-- C6: `SafeButton` forwards every prop other than `className` and `variant`
to the underlying `Button` unchanged, forwards `variant` unchanged too, and
transforms only `className`, by merging the static class list; being a pure
function into `Button` props, it performs no computation or side effect beyond
this delegation. -/
theorem C6_frame_only_className_transformed (V R : Type) (p : ButtonProps V R) :
    (SafeButton p).rest = p.rest ∧
    (SafeButton p).variant = p.variant ∧
    (SafeButton p).className = cn safeButtonStaticClasses p.className :=
  ⟨rfl, rfl, rfl⟩

/-- C7: when every display-string prop is non-empty (in particular
`channelName`), the avatar fallback's access `channelName[0]` is in bounds:
the first character exists and the fallback renders exactly its one-character
text node, so the out-of-bounds (empty-render) branch is unreachable. -/
theorem C7_fallback_in_bounds (p : VideoCardProps)
    (_hid : p.id ≠ "") (_htitle : p.title ≠ "") (hchan : p.channelName ≠ "")
    (_hviews : p.views ≠ "") (_htime : p.timePosted ≠ "")
    (_hdur : p.duration ≠ "") (_hcid : p.channelId ≠ "") :
    ∃ c, p.channelName.data.head? = some c ∧
      avatarFallbackNodes p.channelName = [Node.text (String.singleton c)] := by
  obtain ⟨c, hc⟩ := head_isSome_of_ne_empty p.channelName hchan
  exact ⟨c, hc, by simp [avatarFallbackNodes, hc]⟩

/-- C7 witness: the theorem instantiated at the concrete props record. -/
theorem C7_witness :
    (sampleProps.id ≠ "" ∧ sampleProps.title ≠ "" ∧
     sampleProps.channelName ≠ "" ∧ sampleProps.views ≠ "" ∧
     sampleProps.timePosted ≠ "" ∧ sampleProps.duration ≠ "" ∧
     sampleProps.channelId ≠ "") ∧
    (∃ c, sampleProps.channelName.data.head? = some c ∧
      avatarFallbackNodes sampleProps.channelName =
        [Node.text (String.singleton c)]) :=
  ⟨⟨by decide, by decide, by decide, by decide, by decide, by decide, by decide⟩,
   C7_fallback_in_bounds sampleProps (by decide) (by decide) (by decide)
     (by decide) (by decide) (by decide) (by decide)⟩

/-- C8: the configuration object declares an image-host allow-list of exactly
the two hostnames `i.pravatar.cc` and `picsum.photos`, and exactly two
compiler flags (`reactStrictMode` and `compiler.styledComponents`), both set;
the `NextConfig` structure has no further fields, so it holds no other
logic. -/
theorem C8_next_config :
    nextConfig.images.domains = ["i.pravatar.cc", "picsum.photos"] ∧
    nextConfig.reactStrictMode = true ∧
    nextConfig.compiler.styledComponents = true :=
  ⟨rfl, rfl, rfl⟩

/-- C9: on the first render of `VideoCard`, before the mount effect has run,
the thumbnail `img` element's `src` is the empty string (the initial state),
for every props record. -/
theorem C9_first_render_empty_src (p : VideoCardProps) :
    Node.srcsOfTag "img" (videoCardRenderAt p false) = [""] := by
  simp [videoCardRenderAt, renderVideoCard, videoCardInitialThumbnail,
    Node.srcsOfTag, Node.srcsOfTagList, List.lookup, srcsOfTagList_fallback]

/-- C10: `VideoCard` and `SafeButton` are deterministic: two runs on equal
props records (and, for `VideoCard`, equal effect-completion status) produce
identical rendered outputs.  Both are embedded as functions whose only inputs
are the props (and the mount status), so neither reads a random source, the
clock, or any other input. -/
theorem C10_deterministic (p₁ p₂ : VideoCardProps) (m₁ m₂ : Bool)
    (V R : Type) (b₁ b₂ : ButtonProps V R)
    (hp : p₁ = p₂) (hm : m₁ = m₂) (hb : b₁ = b₂) :
    videoCardRenderAt p₁ m₁ = videoCardRenderAt p₂ m₂ ∧
      SafeButton b₁ = SafeButton b₂ := by
  subst hp; subst hm; subst hb; exact ⟨rfl, rfl⟩

/-- C10 witness: the theorem instantiated at concrete props records. -/
theorem C10_witness :
    (sampleProps = sampleProps ∧ true = true ∧ sampleBtn = sampleBtn) ∧
    (videoCardRenderAt sampleProps true = videoCardRenderAt sampleProps true ∧
      SafeButton sampleBtn = SafeButton sampleBtn) :=
  ⟨⟨rfl, rfl, rfl⟩,
   C10_deterministic sampleProps sampleProps true true String Unit
     sampleBtn sampleBtn rfl rfl rfl⟩

end NextTpl
